import Mathlib

/-!
Verification development for the TiMemory persistent-conversational-memory
engine.  Each definition below is a shallow embedding of a function of the
Python sources (src/TiMemory); the theorems at the end of the file settle the
frozen claims C1..C10 about the retrieval path, the consolidation write path,
the session watermarks, the summary trigger, the topic detector, the chat
context assembly and session creation.

External collaborators (the embedding model, the cosine-distance operator of
the vector database, the two LLM calls) are modelled as explicit function
parameters: `embed`, `dist`, `extract`, `consolidate`, `llm`.  Fallible calls
return `Except String`.  Timestamps are `Nat`; vectors are `List Int`.
-/

namespace TiMemory

/-- Attributes of a memory record: schemas/memory.py MemoryAttributes, the
two optional fields `type` and `status`. -/
structure MemoryAttributes where
  mtype : Option String
  status : Option String
deriving DecidableEq, Repr

/-- Row of the memories table.  Modelled from the spec: the ORM model
models/memory.py is imported by tidb.py and models/__init__.py but is not
under src; the spec fixes its columns as
(id TEXT PK, user_id TEXT, content TEXT, vector VECTOR(D), attributes JSON,
created_at, updated_at) with server timestamps. -/
structure MemoryRec where
  id : String
  user_id : String
  content : String
  vector : List Int
  attrs : MemoryAttributes
  created_at : Nat
  updated_at : Nat
deriving DecidableEq, Repr

/-- Chat message as the dicts passed around the pipeline: role and content. -/
structure Msg where
  role : String
  content : String
deriving DecidableEq, Repr

/-- TiDB.insert_memory (tidb.py lines 73-94): adds the row and commits; a
duplicate primary key makes the commit raise, the transaction is rolled back
and the error re-raised.  The primary-key constraint on `id` is part of the
missing models/memory.py; modelled from the spec: `id TEXT PK`. -/
def insert_memory (store : List MemoryRec) (id : String) (vector : List Int)
    (user_id : String) (content : String) (attrs : MemoryAttributes)
    (now : Nat) : Except String (List MemoryRec) :=
  if store.any (fun r => r.id == id) then
    Except.error "Conflict"
  else
    Except.ok (store ++ [MemoryRec.mk id user_id content vector attrs now now])

/-- Insertion step of an insertion sort ordered by the key `d`. -/
def insertByKey (d : MemoryRec → Int) (m : MemoryRec) :
    List MemoryRec → List MemoryRec
  | [] => [m]
  | x :: xs => if d m ≤ d x then m :: x :: xs else x :: insertByKey d m xs

/-- Insertion sort of memory rows by the key `d`; stands for the ORDER BY of
the vector search. -/
def sortByKey (d : MemoryRec → Int) : List MemoryRec → List MemoryRec
  | [] => []
  | x :: xs => insertByKey d x (sortByKey d xs)

/-- TiDB.search_memories (tidb.py lines 96-108): filter the memories table to
the requested user_id, order by cosine distance of the stored vector to the
query vector, and take at most `limit` rows.  No other filter is applied.
The distance operator of the database is the parameter `dist`. -/
def search_memories (dist : List Int → List Int → Int)
    (query_vector : List Int) (user_id : String) (limit : Nat)
    (store : List MemoryRec) : List MemoryRec :=
  (sortByKey (fun r => dist r.vector query_vector)
    (store.filter (fun r => r.user_id == user_id))).take limit

/-- TiDB.update_memory (tidb.py lines 122-137): look up the first row with
the given id; when present, overwrite exactly the supplied fields and commit;
when absent, log a warning and return normally (no error is raised either
way).  The bump of updated_at on a successful commit belongs to the missing
models/memory.py; modelled from the spec: updated_at bumps on success. -/
def update_memory (id : String) (vector? : Option (List Int))
    (content? : Option String) (attrs? : Option MemoryAttributes)
    (now : Nat) : List MemoryRec → List MemoryRec
  | [] => []
  | r :: rs =>
    if r.id == id then
      { r with
        vector := vector?.getD r.vector
        content := content?.getD r.content
        attrs := attrs?.getD r.attrs
        updated_at := now } :: rs
    else
      r :: update_memory id vector? content? attrs? now rs

/-- TiMemory.search (timemory.py lines 152-160): embed the query string, then
run the vector-store search for the user.  This is the whole retrieval path
used during chat. -/
def timemory_search (embed : String → List Int)
    (dist : List Int → List Int → Int) (query : String) (user_id : String)
    (limit : Nat) (store : List MemoryRec) : List MemoryRec :=
  search_memories dist (embed query) user_id limit store

/-- Item of a MemoryConsolidationResponse (schemas/memory.py
MemoryConsolidationItem): id, content and the attribute pair. -/
structure ConsItem where
  id : String
  content : String
  attrs : MemoryAttributes
deriving DecidableEq, Repr

/-- Item of a MemoryExtractionResponse (schemas/memory.py
MemoryExtractionItem): content plus the type tag, no status yet. -/
structure ExtractItem where
  content : String
  mtype : String
deriving DecidableEq, Repr

/-- Candidate construction in TiMemory.process_memories (timemory.py lines
91-102): each extracted item gets a fresh uuid (the supply `freshIds`) and
status "active". -/
def mkCandidates (freshIds : List String) (items : List ExtractItem) :
    List ConsItem :=
  (freshIds.zip items).map
    (fun p => ConsItem.mk p.1 p.2.content (MemoryAttributes.mk (some p.2.mtype) (some "active")))

/-- Merge step of TiMemory._find_similar_memories (timemory.py lines
204-225): append each search result whose id has not been seen yet. -/
def addSimilar (results : List MemoryRec) (acc : List ConsItem) :
    List ConsItem :=
  results.foldl
    (fun acc r =>
      if acc.any (fun c => c.id == r.id) then acc
      else acc ++ [ConsItem.mk r.id r.content r.attrs]) acc

/-- TiMemory._find_similar_memories (timemory.py lines 204-225): for each
candidate, embed its content, search the store with limit
memory_search_limit, and merge the results deduplicated by id. -/
def find_similar_memories (embed : String → List Int)
    (dist : List Int → List Int → Int) (limit : Nat) (user_id : String)
    (cands : List ConsItem) (store : List MemoryRec) : List ConsItem :=
  cands.foldl
    (fun acc c =>
      addSimilar (search_memories dist (embed c.content) user_id limit store) acc)
    []

/-- TiMemory._store_memories (timemory.py lines 227-248): for each entry,
re-embed its content; an entry whose status is "outdated" goes through
update_memory (vector and attributes, id preserved, content untouched);
every other entry goes through insert_memory.  Each operation commits on its
own, so on the first raised error the writes already made are kept and the
error propagates (the `Option String` component). -/
def store_memories (embed : String → List Int) (now : Nat) (user_id : String)
    (mems : List ConsItem) (store : List MemoryRec) :
    List MemoryRec × Option String :=
  match mems with
  | [] => (store, none)
  | m :: rest =>
    if m.attrs.status == some "outdated" then
      store_memories embed now user_id rest
        (update_memory m.id (some (embed m.content)) none (some m.attrs) now store)
    else
      match insert_memory store m.id (embed m.content) user_id m.content m.attrs now with
      | Except.ok store2 => store_memories embed now user_id rest store2
      | Except.error e => (store, some e)

/-- TiMemory.process_memories (timemory.py lines 76-115): extract facts from
the message window (the LLM call `extract`; an invalid structured output
raises and the error propagates), give each candidate a fresh id and status
"active", collect similar existing memories; when none exist, store the
candidates directly, otherwise ask the consolidation LLM and store its
response. -/
def process_memories (extract : List Msg → Except String (List ExtractItem))
    (consolidate : List ConsItem → List ConsItem → Except String (List ConsItem))
    (embed : String → List Int) (dist : List Int → List Int → Int)
    (limit : Nat) (freshIds : List String) (now : Nat) (msgs : List Msg)
    (user_id : String) (store : List MemoryRec) :
    List MemoryRec × Option String :=
  match extract msgs with
  | Except.error e => (store, some e)
  | Except.ok items =>
    if items.isEmpty then (store, none)
    else
      let cands := mkCandidates freshIds items
      let existing := find_similar_memories embed dist limit user_id cands store
      if existing.isEmpty then
        store_memories embed now user_id cands store
      else
        match consolidate existing cands with
        | Except.error e => (store, some e)
        | Except.ok out => store_memories embed now user_id out store

/-- Per-session state: the ordered message list (message_count is its length,
as get_message_count counts the messages table) and the two integer
watermarks of models/session.py. -/
structure SessionState where
  messages : List Msg
  last_memory_processed_at : Nat
  last_summary_generated_at : Nat
deriving DecidableEq, Repr

/-- Modelled from the spec: SessionManager.update_last_memory_processed_at is
called by tasks/memory_tasks.py and core/topic_detector.py but its definition
is not under src; spec section 4.2 fixes the advance as monotonic, a lower
value being a no-op, so concurrent advances collapse to their max. -/
def update_last_memory_processed_at (s : SessionState) (idx : Nat) :
    SessionState :=
  { s with last_memory_processed_at := max s.last_memory_processed_at idx }

/-- Modelled from the spec: the setter of last_summary_generated_at (the
advance_summary_watermark of spec section 4.2, reached through
SessionManager.update_session_summary) is not under src; the spec fixes the
same monotonicity as for the memory watermark. -/
def update_last_summary_generated_at (s : SessionState) (idx : Nat) :
    SessionState :=
  { s with last_summary_generated_at := max s.last_summary_generated_at idx }

/-- SessionManager.add_message_to_session: append one message; the message
count grows by one since it is the count of the messages table. -/
def add_message_to_session (s : SessionState) (role content : String) :
    SessionState :=
  { s with messages := s.messages ++ [Msg.mk role content] }

/-- Worker tail of tasks/memory_tasks.py process_memories (lines 32-37):
after the extraction job finished successfully, read the current message
count and advance the memory watermark to it. -/
def worker_advance_memory_watermark (s : SessionState) : SessionState :=
  update_last_memory_processed_at s s.messages.length

/-- SummaryService.should_generate_summary (core/summary_service.py lines
49-54): pure threshold test, messages since the summary watermark at least
summary_threshold. -/
def should_generate_summary_svc (current last_summary_at threshold : Int) :
    Bool :=
  threshold ≤ current - last_summary_at

/-- SessionManager.should_generate_summary (session_manager.py lines
291-309): below message_limit never; at or above it, generate when no summary
exists yet, else when the count grew by at least summary_threshold since the
latest summary record (`latest` carries its message_count_at_creation). -/
def should_generate_summary_sm (current message_limit threshold : Int)
    (latest : Option Int) : Bool :=
  if current < message_limit then false
  else
    match latest with
    | none => true
    | some c => threshold ≤ current - c

/-- TopicDetector.detect_topic_change (core/topic_detector.py lines 78-107):
fewer than two messages (or none) return false without calling the LLM; the
LLM answer is returned as is; any raised error is caught and the detector
returns false. -/
def detect_topic_change (llm : List Msg → Except String Bool)
    (messages : List Msg) : Bool :=
  if messages.length < 2 then false
  else
    match llm messages with
    | Except.ok b => b
    | Except.error _ => false

/-- TopicDetector.check_and_process_topic_change (core/topic_detector.py
lines 28-76): no new messages or a window shorter than two messages return
false; on a detected topic change the memory processing is run in line
(`processOk` records whether it raised), then the coordinator itself
advances the memory watermark to the current count, then, when the service
threshold is met, generates and stores a summary (`summaryOk` records
whether that raised); every raised error is caught and turned into false,
keeping whatever state changes already happened. -/
def check_and_process_topic_change (detect : List Msg → Bool)
    (processOk summaryOk : Bool) (summary_threshold : Int)
    (s : SessionState) : Bool × SessionState :=
  let current := s.messages.length
  if current ≤ s.last_memory_processed_at then (false, s)
  else
    let window := s.messages.drop s.last_memory_processed_at
    if window.length < 2 then (false, s)
    else if detect window then
      if processOk then
        let s1 := update_last_memory_processed_at s current
        if should_generate_summary_svc (current : Int)
            (s1.last_summary_generated_at : Int) summary_threshold then
          if summaryOk then (true, update_last_summary_generated_at s1 current)
          else (false, s1)
        else (true, s1)
      else (false, s)
    else (false, s)

/-- Instruction assembly of TiMemory.chat_with_memory (timemory.py lines
308-313): the system prompt, then the SUMMARY section, then the SESSION
CONTEXT section.  No MEMORIES section is appended, although the memories were
retrieved just above. -/
def batched_instructions (system summary session_context : String) : String :=
  system ++ "\n SUMMARY: " ++ summary ++ "\n SESSION CONTEXT: " ++ session_context

/-- Instruction assembly of TiMemory.chat_with_memory_stream (timemory.py
lines 376-382): the system prompt, then the MEMORIES, SUMMARY and SESSION
CONTEXT sections. -/
def streaming_instructions (system memories summary session_context : String) :
    String :=
  system ++ "\n MEMORIES: " ++ memories ++ "\n SUMMARY: " ++ summary ++
    "\n SESSION CONTEXT: " ++ session_context

/-- Observable post-turn effects of the two chat entry points. -/
inductive PostTurnHook where
  | appendMessage (role : String) : PostTurnHook
  | queueMemoryProcessing : PostTurnHook
deriving DecidableEq, Repr

/-- Post-turn hooks of chat_with_memory (timemory.py lines 323-332): append
the user message, append the assistant message, queue background memory
processing. -/
def batched_post_turn_hooks : List PostTurnHook :=
  [PostTurnHook.appendMessage "user", PostTurnHook.appendMessage "assistant",
    PostTurnHook.queueMemoryProcessing]

/-- Post-turn hooks of chat_with_memory_stream (timemory.py lines 420-429):
the same three effects, run after the stream has been fully consumed. -/
def streaming_post_turn_hooks : List PostTurnHook :=
  [PostTurnHook.appendMessage "user", PostTurnHook.appendMessage "assistant",
    PostTurnHook.queueMemoryProcessing]

/-- Row of the sessions table as far as get_or_create_session observes it. -/
structure SessionRow where
  session_id : String
  user_id : String
  title : String
deriving DecidableEq, Repr

/-- SessionManager.generate_session_title (session_manager.py lines 224-232):
strip, keep the first 50 characters, append dots when the message was longer,
normalize inner whitespace; an empty result falls back to a dated stub
(`dateStub`). -/
def generate_session_title (dateStub : String) (first_message : String) :
    String :=
  let t := (first_message.trim).take 50
  let t := if first_message.length > 50 then t ++ "..." else t
  let t := String.intercalate " "
    ((t.split Char.isWhitespace).filter (fun w => w ≠ ""))
  if t = "" then dateStub else t

/-- SessionManager.get_or_create_session (session_manager.py lines 311-332):
a supplied non-empty session_id that exists is returned unchanged; an
unknown (or empty, Python falsiness) session_id only logs a warning and
falls through to creating a brand-new session with a fresh uuid, titled from
the first message (or the stub "New conversation"), exactly as when no
session_id was supplied. -/
def get_or_create_session (store : List SessionRow) (fresh_id : String)
    (dateStub : String) (user_id : String) (sid? : Option String)
    (first_message? : Option String) : String × List SessionRow :=
  let fm := match first_message? with
    | some m => if m = "" then "New conversation" else m
    | none => "New conversation"
  let created :=
    (fresh_id,
      store ++ [SessionRow.mk fresh_id user_id (generate_session_title dateStub fm)])
  match sid? with
  | some sid =>
    if sid = "" then created
    else if store.any (fun r => r.session_id == sid) then (sid, store)
    else created
  | none => created

/-- Concrete distance operator used by the witnesses: constant zero. -/
def dist0 : List Int → List Int → Int := fun _ _ => 0

/-- Concrete embedder used by the witnesses: the length of the text in one
dimension. -/
def embed0 : String → List Int := fun s => [(s.length : Int)]

/-- Concrete consolidator used by the C4 witness: it drops the whole batch
when every new item restates the content of some existing item, and
otherwise returns the new items unchanged; it satisfies the dedup contract
of spec section 4.4 by construction. -/
def consolidate0 (existing new : List ConsItem) :
    Except String (List ConsItem) :=
  if new.all (fun n => existing.any (fun e => e.content == n.content)) then
    Except.ok []
  else
    Except.ok new

/-- Row written by insert_memory for a candidate: the shape produced by the
insert branch of _store_memories. -/
def recOfCand (embed : String → List Int) (now : Nat) (user_id : String)
    (c : ConsItem) : MemoryRec :=
  MemoryRec.mk c.id user_id c.content (embed c.content) c.attrs now now

/-- Concrete extractor used by witnesses: one fixed fact. -/
def extract0 : List Msg → Except String (List ExtractItem) :=
  fun _ => Except.ok [ExtractItem.mk "Name is John" "personal"]

/-- Concrete extractor whose structured output fails to parse. -/
def extractInvalid : List Msg → Except String (List ExtractItem) :=
  fun _ => Except.error "invalid JSON"

/-- Concrete topic-change LLM call that raises. -/
def llmError : List Msg → Except String Bool :=
  fun _ => Except.error "timeout"

/-- Concrete detector returning true on every window. -/
def detectAlways : List Msg → Bool := fun _ => true

/-- Sample stored memory with status outdated. -/
def sampleOutdated : MemoryRec :=
  MemoryRec.mk "m1" "u1" "fact" [4]
    (MemoryAttributes.mk (some "personal") (some "outdated")) 0 0

/-- Sample stored memory with status active. -/
def sampleActive : MemoryRec :=
  MemoryRec.mk "m1" "u1" "old content" [1]
    (MemoryAttributes.mk (some "personal") (some "active")) 0 0

/-- Sample two-message window. -/
def msgs0 : List Msg :=
  [Msg.mk "user" "My name is John", Msg.mk "assistant" "Nice to meet you"]

/-- Store produced by a first successful extraction run of extract0 on the
empty store (one inserted record). -/
def store1AfterRun : List MemoryRec :=
  [MemoryRec.mk "id1" "u1" "Name is John" [12]
    (MemoryAttributes.mk (some "personal") (some "active")) 0 0]

/-- Membership is preserved by one insertion step of the search sort. -/
theorem mem_insertByKey (d : MemoryRec → Int) (x m : MemoryRec) :
    ∀ l : List MemoryRec, m ∈ insertByKey d x l ↔ m = x ∨ m ∈ l
  | [] => by simp [insertByKey]
  | y :: ys => by
    simp only [insertByKey]
    split
    · simp [List.mem_cons]
    · simp only [List.mem_cons, mem_insertByKey d x m ys]
      tauto

/-- The search sort neither adds nor removes rows. -/
theorem mem_sortByKey (d : MemoryRec → Int) (m : MemoryRec) :
    ∀ l : List MemoryRec, m ∈ sortByKey d l ↔ m ∈ l
  | [] => Iff.rfl
  | x :: xs => by
    simp only [sortByKey, mem_insertByKey, mem_sortByKey d m xs, List.mem_cons]

/-- C1: the retrieval path only ever returns rows of the requested user: the
search filters the memories table on user_id before ordering and truncating.
(The status filter the claim also asserts does not exist; see the
counterexample.) -/
theorem c1_search_user_scoped (embed : String → List Int)
    (dist : List Int → List Int → Int) (query user_id : String) (limit : Nat)
    (store : List MemoryRec) (m : MemoryRec)
    (hm : m ∈ timemory_search embed dist query user_id limit store) :
    m.user_id = user_id := by
  have h1 : m ∈ sortByKey (fun r => dist r.vector (embed query))
      (store.filter (fun r => r.user_id == user_id)) :=
    List.take_subset _ _ hm
  have h2 := (mem_sortByKey _ m _).mp h1
  have h3 := List.mem_filter.mp h2
  simpa using h3.2

/-- Witness for c1_search_user_scoped at a concrete one-row store. -/
theorem c1_search_user_scoped_witness : sampleOutdated.user_id = "u1" :=
  c1_search_user_scoped embed0 dist0 "query" "u1" 5 [sampleOutdated]
    sampleOutdated (by decide)

/-- C1 counterexample: search_memories has no status filter, so a memory
whose status is outdated is returned by the retrieval path. -/
theorem c1_status_not_filtered_counterexample :
    ¬ (∀ m ∈ timemory_search embed0 dist0 "query" "u1" 5 [sampleOutdated],
        m.attrs.status = some "active") := by decide

/-- C9: the topic detector is fail-closed: a window of fewer than two
messages yields false without consulting the LLM, and a raised LLM error is
caught and also yields false. -/
theorem c9_detector_fail_closed (llm : List Msg → Except String Bool)
    (messages : List Msg) (e : String) :
    (messages.length < 2 → detect_topic_change llm messages = false) ∧
    (llm messages = Except.error e → detect_topic_change llm messages = false) := by
  constructor
  · intro h
    simp [detect_topic_change, h]
  · intro h
    by_cases h2 : messages.length < 2
    · simp [detect_topic_change, h2]
    · simp [detect_topic_change, h2, h]

/-- Witness for c9_detector_fail_closed: a one-message window, and a
two-message window with an erroring LLM, both yield false. -/
theorem c9_detector_fail_closed_witness :
    detect_topic_change llmError [Msg.mk "user" "hi"] = false ∧
    detect_topic_change llmError msgs0 = false :=
  ⟨(c9_detector_fail_closed llmError [Msg.mk "user" "hi"] "timeout").1 (by decide),
    (c9_detector_fail_closed llmError msgs0 "timeout").2 rfl⟩

/-- C5 counterexample: with message_limit 20, summary_threshold 10 and no
prior summary, at message count 10 the claimed threshold condition
current - last ≥ threshold holds, yet should_generate_summary returns false
because the count is still below message_limit: the claimed iff fails. -/
theorem c5_summary_iff_counterexample :
    ¬ (should_generate_summary_sm 10 20 10 none = true ↔
        (10 : Int) - 0 ≥ 10) := by decide

/-- C5 amended: SessionManager.should_generate_summary fires iff the count
reached message_limit and either no summary exists yet or the count grew by
summary_threshold since the latest one; in particular with limit 20,
threshold 10 and no prior summary it fires exactly when the count reaches
20.  The pure-threshold test lives in SummaryService.should_generate_summary
instead. -/
theorem c5_summary_trigger (current message_limit threshold c : Int) :
    (should_generate_summary_sm current message_limit threshold none = true ↔
      message_limit ≤ current) ∧
    (should_generate_summary_sm current message_limit threshold (some c) = true ↔
      (message_limit ≤ current ∧ threshold ≤ current - c)) ∧
    (should_generate_summary_svc current c threshold = true ↔
      threshold ≤ current - c) ∧
    (should_generate_summary_sm current 20 10 none = true ↔ 20 ≤ current) := by
  refine ⟨?_, ?_, ?_, ?_⟩
  · simp only [should_generate_summary_sm]
    split <;> simp_all
  · simp only [should_generate_summary_sm]
    split <;> simp_all
  · simp only [should_generate_summary_svc]
    simp
  · simp only [should_generate_summary_sm]
    split <;> simp_all

/-- C8: the two chat entry points do not build the same instruction: the
batched path appends only the SUMMARY and SESSION CONTEXT sections while the
streaming path also appends MEMORIES; the three post-turn hooks (append user
message, append assistant message, queue background memory processing) are
identical. -/
theorem c8_context_assembly_divergence :
    batched_instructions "SYS" "SUM" "CTX" =
      "SYS\n SUMMARY: SUM\n SESSION CONTEXT: CTX" ∧
    streaming_instructions "SYS" "MEM" "SUM" "CTX" =
      "SYS\n MEMORIES: MEM\n SUMMARY: SUM\n SESSION CONTEXT: CTX" ∧
    batched_instructions "SYS" "SUM" "CTX" ≠
      streaming_instructions "SYS" "MEM" "SUM" "CTX" ∧
    batched_post_turn_hooks = streaming_post_turn_hooks := by
  refine ⟨rfl, rfl, by decide, rfl⟩

/-- C10: get_or_create_session with an unknown (non-empty) session_id never
reports the id as missing: it behaves exactly as a call that supplied no
session_id at all, silently creating a brand-new session with the fresh id
and returning that id. -/
theorem c10_unknown_session_silently_created (store : List SessionRow)
    (fresh_id dateStub user_id sid : String) (first_message? : Option String)
    (hsid : sid ≠ "")
    (habsent : ∀ r ∈ store, r.session_id ≠ sid) :
    get_or_create_session store fresh_id dateStub user_id (some sid) first_message? =
      get_or_create_session store fresh_id dateStub user_id none first_message? ∧
    (get_or_create_session store fresh_id dateStub user_id (some sid) first_message?).1 =
      fresh_id ∧
    (∃ row ∈ (get_or_create_session store fresh_id dateStub user_id (some sid) first_message?).2,
      row.session_id = fresh_id ∧ row.user_id = user_id) := by
  have hany : store.any (fun r => r.session_id == sid) = false := by
    rw [List.any_eq_false]
    intro r hr
    simpa using habsent r hr
  refine ⟨?_, ?_, ?_⟩
  · simp [get_or_create_session, hsid, hany]
  · simp [get_or_create_session, hsid, hany]
  · refine ⟨SessionRow.mk fresh_id user_id
      (generate_session_title dateStub (match first_message? with
        | some m => if m = "" then "New conversation" else m
        | none => "New conversation")), ?_, rfl, rfl⟩
    simp [get_or_create_session, hsid, hany]

/-- Witness for c10_unknown_session_silently_created on the empty session
store and an unknown id. -/
theorem c10_unknown_session_witness :
    get_or_create_session [] "fid" "stub" "u1" (some "unknown") (some "Hello there") =
      get_or_create_session [] "fid" "stub" "u1" none (some "Hello there") ∧
    (get_or_create_session [] "fid" "stub" "u1" (some "unknown") (some "Hello there")).1 =
      "fid" ∧
    (∃ row ∈ (get_or_create_session [] "fid" "stub" "u1" (some "unknown") (some "Hello there")).2,
      row.session_id = "fid" ∧ row.user_id = "u1") :=
  c10_unknown_session_silently_created [] "fid" "stub" "u1" "unknown"
    (some "Hello there") (by decide) (by simp)

/-- C6 counterexample: when the extraction LLM call fails to parse, the
operation does not complete without raising: process_memories propagates the
error (the celery task layer then schedules the retries). -/
theorem c6_invalid_json_raises_counterexample :
    ¬ ((process_memories extractInvalid consolidate0 embed0 dist0 10 [] 0
        msgs0 "u1" []).2 = none) := by decide

/-- C6 amended: an extraction error aborts process_memories before any store
operation: the error propagates unchanged and the memory store is returned
exactly as it was; no synchronous retry happens inside the operation (the
background task layer owns the retries). -/
theorem c6_extraction_error_leaves_store (extract : List Msg → Except String (List ExtractItem))
    (consolidate : List ConsItem → List ConsItem → Except String (List ConsItem))
    (embed : String → List Int) (dist : List Int → List Int → Int)
    (limit : Nat) (freshIds : List String) (now : Nat) (msgs : List Msg)
    (user_id : String) (store : List MemoryRec) (e : String)
    (hext : extract msgs = Except.error e) :
    process_memories extract consolidate embed dist limit freshIds now msgs
      user_id store = (store, some e) := by
  simp [process_memories, hext]

/-- Witness for c6_extraction_error_leaves_store on a one-row store. -/
theorem c6_extraction_error_witness :
    process_memories extractInvalid consolidate0 embed0 dist0 10 [] 0
      msgs0 "u1" [sampleActive] = ([sampleActive], some "invalid JSON") :=
  c6_extraction_error_leaves_store extractInvalid consolidate0 embed0 dist0
    10 [] 0 msgs0 "u1" [sampleActive] "invalid JSON" rfl

/-- C7 counterexample: updating an id that is not in the store is a silent
no-op, not a NotFound failure: the write path reports success (no error) and
the store is unchanged. -/
theorem c7_update_missing_counterexample :
    store_memories embed0 5 "u1"
      [ConsItem.mk "zzz" "gone" (MemoryAttributes.mk (some "personal") (some "outdated"))]
      [sampleActive] = ([sampleActive], none) := by decide

/-- C7 amended: update_memory on an absent id returns the store unchanged
without any failure; on a present id some row with that id gets its
updated_at bumped to the commit time; insert_memory fails with Conflict on
an existing id (leaving every row untouched, since the error carries no new
store) and appends the new row when the id is fresh. -/
theorem c7_vector_store_ops (store : List MemoryRec) (id : String)
    (vector? : Option (List Int)) (content? : Option String)
    (attrs? : Option MemoryAttributes) (now : Nat) (vec : List Int)
    (user_id content : String) (attrs : MemoryAttributes) :
    ((∀ r ∈ store, r.id ≠ id) →
      update_memory id vector? content? attrs? now store = store) ∧
    ((∃ r ∈ store, r.id = id) →
      ∃ r' ∈ update_memory id vector? content? attrs? now store,
        r'.id = id ∧ r'.updated_at = now) ∧
    ((∃ r ∈ store, r.id = id) →
      insert_memory store id vec user_id content attrs now =
        Except.error "Conflict") ∧
    ((∀ r ∈ store, r.id ≠ id) →
      insert_memory store id vec user_id content attrs now =
        Except.ok (store ++ [MemoryRec.mk id user_id content vec attrs now now])) := by
  refine ⟨?_, ?_, ?_, ?_⟩
  · intro h
    induction store with
    | nil => rfl
    | cons r rs ih =>
      have hr : r.id ≠ id := h r (List.mem_cons_self r rs)
      simp only [update_memory]
      rw [if_neg (by simpa using hr)]
      rw [ih (fun x hx => h x (List.mem_cons_of_mem r hx))]
  · intro h
    induction store with
    | nil => simp at h
    | cons r rs ih =>
      by_cases hr : r.id = id
      · simp only [update_memory]
        rw [if_pos (by simpa using hr)]
        exact ⟨_, List.mem_cons_self _ _, hr, rfl⟩
      · obtain ⟨x, hx, hxid⟩ := h
        rcases List.mem_cons.mp hx with rfl | hx2
        · exact absurd hxid hr
        · obtain ⟨r', hr', hid', hta'⟩ := ih ⟨x, hx2, hxid⟩
          refine ⟨r', ?_, hid', hta'⟩
          simp only [update_memory]
          rw [if_neg (by simpa using hr)]
          exact List.mem_cons_of_mem r hr'
  · intro h
    obtain ⟨x, hx, hxid⟩ := h
    have hany : store.any (fun r => r.id == id) = true := by
      rw [List.any_eq_true]
      exact ⟨x, hx, by simpa using hxid⟩
    simp [insert_memory, hany]
  · intro h
    have hany : store.any (fun r => r.id == id) = false := by
      rw [List.any_eq_false]
      intro r hr
      simpa using h r hr
    simp [insert_memory, hany]

/-- Witness for c7_vector_store_ops: the absent-id no-op of update and the
Conflict of insert on an existing id, both on a concrete one-row store. -/
theorem c7_vector_store_ops_witness :
    update_memory "zzz" (some [9]) none none 5 [sampleActive] = [sampleActive] ∧
    insert_memory [sampleActive] "m1" [2] "u1" "dup"
      (MemoryAttributes.mk (some "personal") (some "active")) 5 =
      Except.error "Conflict" :=
  ⟨(c7_vector_store_ops [sampleActive] "zzz" (some [9]) none none 5 [2] "u1"
      "dup" (MemoryAttributes.mk (some "personal") (some "active"))).1
      (by decide),
    (c7_vector_store_ops [sampleActive] "m1" (some [9]) none none 5 [2] "u1"
      "dup" (MemoryAttributes.mk (some "personal") (some "active"))).2.2.1
      (by decide)⟩

/-- C3 counterexample: on a detected topic change
check_and_process_topic_change itself advances the memory watermark (to the
current count 2 from 0) in the request path, so the watermark is not
advanced only by the background worker. -/
theorem c3_coordinator_advances_counterexample :
    (check_and_process_topic_change detectAlways true true 10
        (SessionState.mk msgs0 0 0)).2.last_memory_processed_at ≠
      (SessionState.mk msgs0 0 0).last_memory_processed_at := by decide

/-- C3 amended: both watermarks are monotone and stay bounded by the message
count across the coordinator step (whose advances use the spec-modelled
monotonic setters), the coordinator never touches the messages, a turn on
which the detector returns false leaves the session state untouched, and the
worker advance after a successful job is likewise monotone and bounded by
the count; but on a detected topic change the coordinator itself advances
the memory watermark (see the counterexample). -/
theorem c3_watermark_discipline (detect : List Msg → Bool)
    (processOk summaryOk : Bool) (thr : Int) (s : SessionState)
    (hm : s.last_memory_processed_at ≤ s.messages.length)
    (hs : s.last_summary_generated_at ≤ s.messages.length) :
    s.last_memory_processed_at ≤
      (check_and_process_topic_change detect processOk summaryOk thr s).2.last_memory_processed_at ∧
    s.last_summary_generated_at ≤
      (check_and_process_topic_change detect processOk summaryOk thr s).2.last_summary_generated_at ∧
    (check_and_process_topic_change detect processOk summaryOk thr s).2.messages =
      s.messages ∧
    (check_and_process_topic_change detect processOk summaryOk thr s).2.last_memory_processed_at ≤
      (check_and_process_topic_change detect processOk summaryOk thr s).2.messages.length ∧
    (check_and_process_topic_change detect processOk summaryOk thr s).2.last_summary_generated_at ≤
      (check_and_process_topic_change detect processOk summaryOk thr s).2.messages.length ∧
    (detect (s.messages.drop s.last_memory_processed_at) = false →
      (check_and_process_topic_change detect processOk summaryOk thr s).2 = s) ∧
    s.last_memory_processed_at ≤
      (worker_advance_memory_watermark s).last_memory_processed_at ∧
    (worker_advance_memory_watermark s).last_memory_processed_at ≤
      (worker_advance_memory_watermark s).messages.length := by
  refine ⟨?_, ?_, ?_, ?_, ?_, ?_, ?_, ?_⟩ <;>
  · simp only [check_and_process_topic_change, worker_advance_memory_watermark,
      update_last_memory_processed_at, update_last_summary_generated_at]
    first
    | omega
    | (split_ifs <;> simp_all)

/-- Witness for c3_watermark_discipline on a concrete session whose detector
declines, with both watermarks below the count. -/
theorem c3_watermark_discipline_witness :
    (SessionState.mk msgs0 1 0).last_memory_processed_at ≤
      (check_and_process_topic_change (fun _ => false) true true 10
        (SessionState.mk msgs0 1 0)).2.last_memory_processed_at ∧
    (check_and_process_topic_change (fun _ => false) true true 10
      (SessionState.mk msgs0 1 0)).2 = SessionState.mk msgs0 1 0 :=
  ⟨(c3_watermark_discipline (fun _ => false) true true 10
      (SessionState.mk msgs0 1 0) (by decide) (by decide)).1,
    (c3_watermark_discipline (fun _ => false) true true 10
      (SessionState.mk msgs0 1 0) (by decide) (by decide)).2.2.2.2.2.1 rfl⟩

/-- update_memory never changes which ids the store holds. -/
theorem update_memory_id_map (id : String) (vector? : Option (List Int))
    (content? : Option String) (attrs? : Option MemoryAttributes) (now : Nat) :
    ∀ store : List MemoryRec,
      (update_memory id vector? content? attrs? now store).map MemoryRec.id =
        store.map MemoryRec.id
  | [] => rfl
  | r :: rs => by
    simp only [update_memory]
    split
    · simp
    · simp [update_memory_id_map id vector? content? attrs? now rs]

/-- Every candidate built by process_memories carries status active and the
content of one of the extracted items. -/
theorem mkCandidates_shape (freshIds : List String) (items : List ExtractItem)
    (c : ConsItem) (hc : c ∈ mkCandidates freshIds items) :
    c.attrs.status = some "active" ∧ ∃ it ∈ items, c.content = it.content := by
  obtain ⟨p, hp, rfl⟩ := List.mem_map.mp hc
  obtain ⟨i, it⟩ := p
  exact ⟨rfl, it, (List.of_mem_zip hp).2, rfl⟩

/-- Storing a list of candidates that are all active, with ids pairwise
distinct and absent from the store, inserts them all in order. -/
theorem store_memories_all_fresh (embed : String → List Int) (now : Nat)
    (user_id : String) (cands : List ConsItem) :
    ∀ store : List MemoryRec,
      (∀ c ∈ cands, c.attrs.status ≠ some "outdated") →
      (∀ c ∈ cands, ∀ r ∈ store, r.id ≠ c.id) →
      (cands.map ConsItem.id).Nodup →
      store_memories embed now user_id cands store =
        (store ++ cands.map (recOfCand embed now user_id), none) := by
  induction cands with
  | nil =>
    intro store _ _ _
    simp [store_memories]
  | cons c rest ih =>
    intro store hstat hfresh hnodup
    have hc : (c.attrs.status == some "outdated") = false := by
      simpa using hstat c (List.mem_cons_self _ _)
    have hany : store.any (fun r => r.id == c.id) = false := by
      rw [List.any_eq_false]
      intro r hr
      simpa using hfresh c (List.mem_cons_self _ _) r hr
    have hnd : (∀ x ∈ rest, ¬ x.id = c.id) ∧ (rest.map ConsItem.id).Nodup := by
      simpa using hnodup
    have hstat2 : ∀ x ∈ rest, x.attrs.status ≠ some "outdated" :=
      fun x hx => hstat x (List.mem_cons_of_mem _ hx)
    have hfresh2 : ∀ x ∈ rest, ∀ r ∈ store ++ [recOfCand embed now user_id c],
        r.id ≠ x.id := by
      intro x hx r hr
      rcases List.mem_append.mp hr with h | h
      · exact hfresh x (List.mem_cons_of_mem _ hx) r h
      · have hrc : r = recOfCand embed now user_id c := by simpa using h
        subst hrc
        intro hEq
        have hEq2 : c.id = x.id := hEq
        exact hnd.1 x hx hEq2.symm
    have step : store_memories embed now user_id (c :: rest) store =
        store_memories embed now user_id rest
          (store ++ [recOfCand embed now user_id c]) := by
      simp [store_memories, hc, insert_memory, hany, recOfCand]
    rw [step, ih (store ++ [recOfCand embed now user_id c]) hstat2 hfresh2 hnd.2]
    simp

/-- C2 counterexample: an output entry with status active whose id already
exists in the store is not applied as an update: the write path attempts an
insert, which fails with Conflict and leaves the stored content untouched. -/
theorem c2_active_existing_id_counterexample :
    store_memories embed0 7 "u1"
      [ConsItem.mk "m1" "refreshed content"
        (MemoryAttributes.mk (some "personal") (some "active"))]
      [sampleActive] = ([sampleActive], some "Conflict") := by decide

/-- C2 amended: when no similar existing memories are found the pipeline
stores exactly the fresh active candidates as inserts; every candidate is
active; entries with status outdated go through update_memory, which
preserves the set of stored ids; every non-outdated entry goes through
insert_memory (so an active entry with an existing id raises Conflict
instead of refreshing the row, see the counterexample). -/
theorem c2_consolidation_write_path
    (extract : List Msg → Except String (List ExtractItem))
    (consolidate : List ConsItem → List ConsItem → Except String (List ConsItem))
    (embed : String → List Int) (dist : List Int → List Int → Int)
    (limit : Nat) (freshIds : List String) (now : Nat) (msgs : List Msg)
    (user_id : String) (store : List MemoryRec) (items : List ExtractItem)
    (hext : extract msgs = Except.ok items)
    (hne : items ≠ [])
    (hsim : find_similar_memories embed dist limit user_id
      (mkCandidates freshIds items) store = [])
    (hfresh : ∀ c ∈ mkCandidates freshIds items, ∀ r ∈ store, r.id ≠ c.id)
    (hnodup : ((mkCandidates freshIds items).map ConsItem.id).Nodup) :
    process_memories extract consolidate embed dist limit freshIds now msgs
      user_id store =
      (store ++ (mkCandidates freshIds items).map (recOfCand embed now user_id),
        none) ∧
    (∀ c ∈ mkCandidates freshIds items, c.attrs.status = some "active") ∧
    (∀ (id : String) (v : Option (List Int)) (ct : Option String)
        (a : Option MemoryAttributes),
      (update_memory id v ct a now store).map MemoryRec.id =
        store.map MemoryRec.id) ∧
    (∀ c : ConsItem, c.attrs.status = some "outdated" →
      store_memories embed now user_id [c] store =
        (update_memory c.id (some (embed c.content)) none (some c.attrs) now
          store, none)) := by
  refine ⟨?_, ?_, ?_, ?_⟩
  · cases items with
    | nil => exact absurd rfl hne
    | cons it0 rest =>
      have hempty : (it0 :: rest).isEmpty = false := rfl
      simp only [process_memories, hext, hempty, Bool.false_eq_true, if_false,
        hsim, List.isEmpty_nil, if_true]
      apply store_memories_all_fresh
      · intro c hc
        rw [(mkCandidates_shape freshIds (it0 :: rest) c hc).1]
        simp
      · exact hfresh
      · exact hnodup
  · intro c hc
    exact (mkCandidates_shape freshIds items c hc).1
  · intro id v ct a
    exact update_memory_id_map id v ct a now store
  · intro c hstat
    simp [store_memories, hstat]

/-- Witness for c2_consolidation_write_path: one extracted fact on the empty
store ends up inserted as the single candidate record. -/
theorem c2_consolidation_write_path_witness :
    process_memories extract0 consolidate0 embed0 dist0 10 ["id1"] 0 msgs0
      "u1" [] =
      ([] ++ (mkCandidates ["id1"] [ExtractItem.mk "Name is John" "personal"]).map
        (recOfCand embed0 0 "u1"), none) :=
  (c2_consolidation_write_path extract0 consolidate0 embed0 dist0 10 ["id1"]
    0 msgs0 "u1" [] [ExtractItem.mk "Name is John" "personal"] rfl
    (by decide) (by decide) (by decide) (by decide)).1

/-- The witness consolidator satisfies the dedup contract: a batch of new
items all of whose contents already appear among the existing items is
dropped entirely. -/
theorem consolidate0_dedup (E N : List ConsItem)
    (h : ∀ n ∈ N, ∃ e ∈ E, e.content = n.content) :
    consolidate0 E N = Except.ok [] := by
  have hall : N.all (fun n => E.any (fun e => e.content == n.content)) = true := by
    rw [List.all_eq_true]
    intro n hn
    obtain ⟨e, he, heq⟩ := h n hn
    rw [List.any_eq_true]
    exact ⟨e, he, by simpa using heq⟩
  simp [consolidate0, hall]

/-- C4: rerunning an extraction job is the identity on the store: if a first
run on the same window succeeded, every extracted content has an
exact-content match among the similar existing memories retrieved on the
second run (the recall contract of the vector search), and the consolidator
obeys the dedup rule of spec section 4.4 (a batch of candidates whose
contents all already exist is dropped), then the second run returns the
store unchanged and succeeds. -/
theorem c4_extraction_job_idempotent
    (extract : List Msg → Except String (List ExtractItem))
    (consolidate : List ConsItem → List ConsItem → Except String (List ConsItem))
    (embed : String → List Int) (dist : List Int → List Int → Int)
    (limit : Nat) (freshIds0 freshIds : List String) (now0 now : Nat)
    (msgs : List Msg) (user_id : String) (store0 store1 : List MemoryRec)
    (items : List ExtractItem)
    (hrun1 : process_memories extract consolidate embed dist limit freshIds0
      now0 msgs user_id store0 = (store1, none))
    (hext : extract msgs = Except.ok items)
    (hrecall : ∀ it ∈ items, ∃ e ∈ find_similar_memories embed dist limit
      user_id (mkCandidates freshIds items) store1, e.content = it.content)
    (hdedup : ∀ E N, (∀ n ∈ N, ∃ e ∈ E, e.content = n.content) →
      consolidate E N = Except.ok []) :
    process_memories extract consolidate embed dist limit freshIds now msgs
      user_id store1 = (store1, none) := by
  cases items with
  | nil => simp [process_memories, hext]
  | cons it0 rest =>
    obtain ⟨e0, he0, _⟩ := hrecall it0 (List.mem_cons_self _ _)
    have hexist : (find_similar_memories embed dist limit user_id
        (mkCandidates freshIds (it0 :: rest)) store1).isEmpty = false := by
      rw [List.isEmpty_eq_false]
      exact List.ne_nil_of_mem he0
    have hcons : consolidate (find_similar_memories embed dist limit user_id
        (mkCandidates freshIds (it0 :: rest)) store1)
        (mkCandidates freshIds (it0 :: rest)) = Except.ok [] := by
      apply hdedup
      intro n hn
      obtain ⟨hstat, it, hitmem, hcontent⟩ :=
        mkCandidates_shape freshIds (it0 :: rest) n hn
      obtain ⟨e, he, heq⟩ := hrecall it hitmem
      exact ⟨e, he, by rw [heq, hcontent]⟩
    have hempty : (it0 :: rest).isEmpty = false := rfl
    simp only [process_memories, hext, hempty, Bool.false_eq_true, if_false,
      hexist, hcons, store_memories]

/-- Witness for c4_extraction_job_idempotent: a concrete first run of
extract0 on the empty store inserts one record; the second run with a new
fresh id finds it again, consolidate0 drops the duplicate, and the store is
unchanged. -/
theorem c4_extraction_job_idempotent_witness :
    process_memories extract0 consolidate0 embed0 dist0 10 ["id2"] 1 msgs0
      "u1" store1AfterRun = (store1AfterRun, none) :=
  c4_extraction_job_idempotent extract0 consolidate0 embed0 dist0 10 ["id1"]
    ["id2"] 0 1 msgs0 "u1" [] store1AfterRun
    [ExtractItem.mk "Name is John" "personal"] (by decide) rfl (by decide)
    consolidate0_dedup

end TiMemory
